import Mathlib

/-!
Verification development for the promo-code service.

The definitions below are a shallow embedding of the repository's Python
source.  Pure request-validation code becomes Lean functions returning
`Except HttpError`, stateful code (the relational store and the Redis
session whitelist) becomes explicit state passing, and Python truthiness
is modelled explicitly where the source relies on it.  Dates are embedded
as integers (only their ordering matters to the code under study).
-/

namespace PromoService

/-- An HTTP error response, as raised by `fastapi.HTTPException` in the
source: a status code plus the human-readable message of the `detail`. -/
structure HttpError where
  code : Nat
  message : String
  deriving DecidableEq, Repr

/-- `str(x)` applied to an optional string, as Python computes it:
`str(None)` is the literal string `"None"`. -/
def pyStr : Option String → String
  | none => "None"
  | some s => s

/-- Python truthiness of an optional string: `None` and `""` are falsy. -/
def pyTruthyStr : Option String → Bool
  | none => false
  | some s => s ≠ ""

/-- Python truthiness of an optional list: `None` and `[]` are falsy. -/
def pyTruthyList {α : Type} : Option (List α) → Bool
  | none => false
  | some l => !l.isEmpty

/-- Python truthiness of an optional integer: `None` and `0` are falsy. -/
def pyTruthyInt : Option Int → Bool
  | none => false
  | some n => n ≠ 0

/-- Python truthiness of an optional date: a `datetime.date` object is
always truthy, so only `None` is falsy. -/
def pyTruthyDate : Option Int → Bool
  | none => false
  | some _ => true

/-! ## Session whitelist (`src/utils/whitelist.py`)

Redis holds one set of jti strings per key.  We embed the store as a
function from key strings to the list of members of the set at that key
(duplicate-free by construction of `sadd`). -/

/-- The `Literal["user", "company"]` entity kind. -/
inductive Entity where
  | user
  | company
  deriving DecidableEq, Repr

/-- The Redis key built by every `TokenWhiteList` method:
`f"whitelist:users:{id}"` for users, `f"whitelist:companies:{id}"` for
companies.  (The `else: raise ValueError` branch of the source is
unreachable here because `Entity` has exactly the two literal values.) -/
def whitelistKey (entity : Entity) (id : String) : String :=
  match entity with
  | .user => "whitelist:users:" ++ id
  | .company => "whitelist:companies:" ++ id

/-- The state of the Redis whitelist store: members of the set at each key. -/
def WhitelistState : Type := String → List String

/-- `TokenWhiteList.add_jti_to_whitelist`: `redis.sadd(string, jti)` —
set insertion at the entity's key. -/
def add_jti_to_whitelist (s : WhitelistState) (id jti : String)
    (entity : Entity) : WhitelistState :=
  fun k =>
    if k = whitelistKey entity id then
      if jti ∈ s k then s k else jti :: s k
    else s k

/-- `TokenWhiteList.check_jti_in_whitelist`: `redis.sismember(string, jti)`. -/
def check_jti_in_whitelist (s : WhitelistState) (id jti : String)
    (entity : Entity) : Bool :=
  jti ∈ s (whitelistKey entity id)

/-- `TokenWhiteList.delete_one_jti_from_whitelist`: `redis.srem(string, jti)`. -/
def delete_one_jti_from_whitelist (s : WhitelistState) (id jti : String)
    (entity : Entity) : WhitelistState :=
  fun k =>
    if k = whitelistKey entity id then (s k).filter (· ≠ jti) else s k

/-- `TokenWhiteList.flush_all_jti_from_whitelist`: `redis.unlink(string)` —
the whole set at the entity's key is removed. -/
def flush_all_jti_from_whitelist (s : WhitelistState) (id : String)
    (entity : Entity) : WhitelistState :=
  fun k =>
    if k = whitelistKey entity id then [] else s k

/-! ## Token bearers (`src/utils/auth.py`) -/

/-- The decoded JWT payload as built by `create_access_token` in
`user_service.py` / `company_service.py`: principal id, token id (`jti`)
and the `refresh` flag.  Expiry is checked by `jwt.decode` before the
payload reaches `verify_token_data`, so it is part of the decode step. -/
structure TokenPayload where
  id : String
  jti : String
  refresh : Bool
  deriving DecidableEq, Repr

/-- The 403 raised by `TokenBearer.__call__` when `jwt.decode` fails
(bad signature, malformed token, or expired). -/
def tokenInvalidError : HttpError :=
  ⟨403, "Token is invalid or expired"⟩

/-- The 403 raised by the access-token bearers' `verify_token_data`. -/
def provideAccessTokenError : HttpError :=
  ⟨403, "Please provide an access token"⟩

/-- `AccessTokenBearer.verify_token_data`: rejects any payload whose
`refresh` field is truthy. -/
def accessTokenVerify (payload : TokenPayload) : Except HttpError Unit :=
  if payload.refresh then .error provideAccessTokenError else .ok ()

/-- `AccessTokenUserBearer.verify_token_data`: rejects refresh tokens,
then requires the payload's jti to be whitelisted for the user. -/
def accessTokenUserVerify (s : WhitelistState) (payload : TokenPayload) :
    Except HttpError Unit :=
  if payload.refresh then .error provideAccessTokenError
  else if ¬ check_jti_in_whitelist s payload.id payload.jti .user then
    .error provideAccessTokenError
  else .ok ()

/-- `AccessTokenCompanyBearer.verify_token_data`: rejects refresh tokens,
then requires the payload's jti to be whitelisted for the company. -/
def accessTokenCompanyVerify (s : WhitelistState) (payload : TokenPayload) :
    Except HttpError Unit :=
  if payload.refresh then .error provideAccessTokenError
  else if ¬ check_jti_in_whitelist s payload.id payload.jti .company then
    .error provideAccessTokenError
  else .ok ()

/-- `TokenBearer.__call__` for the user bearer: `jwt.decode` (embedded as
an `Option TokenPayload` — `none` is any structural, cryptographic or
expiry failure) followed by `verify_token_data`; returns the credentials
on success. -/
def accessTokenUserCall (decoded : Option TokenPayload) (s : WhitelistState) :
    Except HttpError TokenPayload :=
  match decoded with
  | none => .error tokenInvalidError
  | some p =>
    match accessTokenUserVerify s p with
    | .error e => .error e
    | .ok _ => .ok p

/-- `TokenBearer.__call__` for the company bearer. -/
def accessTokenCompanyCall (decoded : Option TokenPayload)
    (s : WhitelistState) : Except HttpError TokenPayload :=
  match decoded with
  | none => .error tokenInvalidError
  | some p =>
    match accessTokenCompanyVerify s p with
    | .error e => .error e
    | .ok _ => .ok p

/-! ## Sign-in whitelist effect
(`UserService.user_sign_in`, `CompanyService.company_sign_in`)

After the email and password checks succeed, `user_sign_in` creates a new
token (fresh random jti, modelled as the parameter `newJti`), flushes the
principal's whitelist set, then adds the new jti; `company_sign_in`
flushes, creates, then adds.  Both leave the same whitelist state. -/

/-- Whitelist effect of a successful `UserService.user_sign_in`. -/
def user_sign_in_whitelist (s : WhitelistState) (uid newJti : String) :
    WhitelistState :=
  add_jti_to_whitelist
    (flush_all_jti_from_whitelist s uid .user) uid newJti .user

/-- Whitelist effect of a successful `CompanyService.company_sign_in`. -/
def company_sign_in_whitelist (s : WhitelistState) (cid newJti : String) :
    WhitelistState :=
  add_jti_to_whitelist
    (flush_all_jti_from_whitelist s cid .company) cid newJti .company

/-! ## Request schemas (`src/schemas/business.py`)

Pydantic runs the per-field constraints of the `Annotated[...] Field`
metadata first; a failure raises `RequestValidationError`, which
`main.py` maps to a 400 response.  Only then does the `mode="after"`
model validator run. -/

/-- The 400 produced by the `RequestValidationError` handler in `main.py`
for any pydantic field-constraint failure. -/
def fieldValidationError : HttpError :=
  ⟨400, "Ошибка в данных запроса."⟩

/-- The character class `[@$!%*?&]` of `password_pattern`. -/
def isPasswordSpecial (c : Char) : Bool :=
  c == '@' || c == '$' || c == '!' || c == '%' || c == '*' || c == '?' || c == '&'

/-- `password_pattern.match(v)`:
`^(?=.*[a-z])(?=.*[A-Z])(?=.*\d)(?=.*[@$!%*?&])[A-Za-z\d@$!%*?&]{8,}$` —
at least one lowercase letter, one uppercase letter, one digit and one
special character, all characters drawn from those classes, length ≥ 8. -/
def passwordPatternMatch (v : String) : Bool :=
  let cs := v.toList
  cs.any Char.isLower && cs.any Char.isUpper && cs.any Char.isDigit &&
    cs.any isPasswordSpecial &&
    cs.all (fun c => c.isLower || c.isUpper || c.isDigit || isPasswordSpecial c) &&
    decide (8 ≤ cs.length)

/-- `val_password` (`schemas/business.py` lines 43-49): the source
computes the pattern-and-length condition and, when it fails, merely
constructs an `HTTPException` without raising it, then returns `v`
unconditionally. -/
def val_password (v : String) : Except HttpError String :=
  if ¬ (passwordPatternMatch v && decide (v.length ≤ 60)
        && decide (8 ≤ v.length)) then
    let _unraised := fieldValidationError
    .ok v
  else
    .ok v

/-- `httpurl_pattern.match(v)`: `^https?://[^\s/$.?#].[^\s]*$` — a scheme,
one character outside `\s/$.?#`, one further (non-newline) character, then
non-whitespace characters to the end. -/
def httpurlMatch (v : String) : Bool :=
  let tail : Option String :=
    if v.startsWith "https://" then some (v.drop 8)
    else if v.startsWith "http://" then some (v.drop 7)
    else none
  match tail with
  | none => false
  | some t =>
    match t.toList with
    | c :: d :: rest =>
      !c.isWhitespace && c != '/' && c != '$' && c != '.' && c != '?' &&
        c != '#' && d != '\n' && rest.all (fun x => !x.isWhitespace)
    | _ => false

/-- `val_httpurl`: raises only when the pattern fails *and* the length
exceeds 350 (the source joins the two conditions with `and`). -/
def val_httpurl (v : String) : Except HttpError String :=
  if ¬ httpurlMatch v ∧ 350 < v.length then .error fieldValidationError
  else .ok v

/-- Whether a fallible validator succeeded. -/
def exceptOk {ε α : Type} : Except ε α → Bool
  | .ok _ => true
  | .error _ => false

/-- The `Target` request model.  The outer `Option` of `age_from`,
`age_until` and `country` records whether the field was explicitly set
(pydantic `exclude_unset` semantics, which `PromoRepository.
update_company_promo` relies on); the inner value is the field's value,
itself optional.  `categories` is only ever read by value. -/
structure Target where
  age_from : Option (Option Int) := none
  age_until : Option (Option Int) := none
  country : Option (Option String) := none
  categories : Option (List String) := none
  deriving DecidableEq, Repr

/-- The attribute value of a possibly-unset optional field: unset reads
as the pydantic default `None`. -/
def fieldVal {α : Type} (f : Option (Option α)) : Option α :=
  f.join

/-- Field constraints of `Target`: ages in `[0, 100]` when present, the
country a two-letter code (the ISO existence check of `CountryAlpha2` is
an external collaborator, embedded as its shape), at most 20 categories
of 2 to 20 characters each. -/
def targetFieldsOk (t : Target) : Bool :=
  (fieldVal t.age_from).all (fun a => decide (0 ≤ a ∧ a ≤ 100)) &&
    (fieldVal t.age_until).all (fun a => decide (0 ≤ a ∧ a ≤ 100)) &&
    (fieldVal t.country).all
      (fun c => decide (c.length = 2) && c.toList.all Char.isAlpha) &&
    t.categories.all (fun l =>
      decide (l.length ≤ 20) &&
        l.all (fun cat => decide (2 ≤ cat.length ∧ cat.length ≤ 20)))

/-- The promo mode, `Literal["COMMON", "UNIQUE"]`. -/
inductive PromoMode where
  | COMMON
  | UNIQUE
  deriving DecidableEq, Repr

/-- `PromoCreateRequest` (dates embedded as integers). -/
structure PromoCreateRequest where
  description : String
  image_url : Option String := none
  target : Option Target := none
  max_count : Int
  active_from : Option Int := none
  active_until : Option Int := none
  mode : PromoMode
  promo_common : Option String := none
  promo_unique : Option (List String) := none
  deriving DecidableEq, Repr

/-- The per-field constraints of `PromoCreateRequest`: description 10-300
characters, image URL (when present) at most 350 characters and accepted
by `val_httpurl`, target field bounds, `0 < max_count ≤ 100000000`,
`promo_common` (when present) 5-30 characters, `promo_unique` (when
present) a list of 1 to 5000 codes of 3 to 30 characters each. -/
def promoCreateFieldsOk (r : PromoCreateRequest) : Bool :=
  decide (10 ≤ r.description.length ∧ r.description.length ≤ 300) &&
    r.image_url.all (fun u =>
      decide (u.length ≤ 350) && exceptOk (val_httpurl u)) &&
    r.target.all targetFieldsOk &&
    decide (0 < r.max_count ∧ r.max_count ≤ 100000000) &&
    r.promo_common.all (fun s => decide (5 ≤ s.length ∧ s.length ≤ 30)) &&
    r.promo_unique.all (fun l =>
      decide (1 ≤ l.length ∧ l.length ≤ 5000) &&
        l.all (fun c => decide (3 ≤ c.length ∧ c.length ≤ 30)))

/-- `PromoCreateRequest.check_promo_codes`, the `mode="after"` model
validator (lines 150-197): mode/code-field consistency checks followed by
the active-window check.  `if not self.max_count != 1` is kept verbatim;
truthiness of the optional code fields is explicit. -/
def check_promo_codes (r : PromoCreateRequest) :
    Except HttpError PromoCreateRequest :=
  let dateTail : Except HttpError PromoCreateRequest :=
    match r.active_from, r.active_until with
    | some f, some u =>
      if f ≥ u then
        .error ⟨400, "active_from should be less then active_until"⟩
      else .ok r
    | _, _ => .ok r
  match r.mode with
  | .COMMON =>
    if ¬ pyTruthyStr r.promo_common then
      .error ⟨400, "promo_common must be provided for COMMON mode"⟩
    else if pyTruthyList r.promo_unique then
      .error ⟨400, "Некорректные данные запроса"⟩
    else dateTail
  | .UNIQUE =>
    if ¬ (r.max_count ≠ 1) then
      .error ⟨400, "Некорректные данные запроса"⟩
    else if ¬ pyTruthyList r.promo_unique then
      .error ⟨400, "Некорректные данные запроса"⟩
    else if pyTruthyStr r.promo_common then
      .error ⟨400, "Некорректные данные запроса"⟩
    else dateTail

/-- Full pydantic validation of a promo-create body: field constraints,
then the model validator. -/
def promoCreateValidate (r : PromoCreateRequest) :
    Except HttpError PromoCreateRequest :=
  if promoCreateFieldsOk r then check_promo_codes r
  else .error fieldValidationError

/-- `PromoPatch` (dates embedded as integers).  Top-level fields are
`None` when omitted; the merge loop in `update_company_promo` skips
`None` values, so one level of `Option` suffices for them. -/
structure PromoPatch where
  description : Option String := none
  image_url : Option String := none
  target : Option Target := none
  max_count : Option Int := none
  active_from : Option Int := none
  active_until : Option Int := none
  deriving DecidableEq, Repr

/-- Per-field constraints of `PromoPatch`. -/
def promoPatchFieldsOk (d : PromoPatch) : Bool :=
  d.description.all
      (fun s => decide (10 ≤ s.length ∧ s.length ≤ 300)) &&
    d.image_url.all (fun u =>
      decide (u.length ≤ 350) && exceptOk (val_httpurl u)) &&
    d.target.all targetFieldsOk &&
    d.max_count.all (fun n => decide (0 < n ∧ n ≤ 100000000))

/-- `PromoPatch.check_data`, the model validator (lines 219-230): rejects
only the strict case `active_from > active_until` when both dates are in
the request body. -/
def check_data (d : PromoPatch) : Except HttpError PromoPatch :=
  match d.active_from, d.active_until with
  | some f, some u =>
    if f > u then
      .error ⟨400, "active_from should be less then active_until"⟩
    else .ok d
  | _, _ => .ok d

/-- Full pydantic validation of a promo-patch body. -/
def promoPatchValidate (d : PromoPatch) : Except HttpError PromoPatch :=
  if promoPatchFieldsOk d then check_data d
  else .error fieldValidationError

/-- The pass-condition of the mode/code-field portion of
`check_promo_codes` (derived from the validator's branches): COMMON mode
needs a truthy `promo_common` and no truthy `promo_unique`; UNIQUE mode
needs `max_count != 1`, a truthy `promo_unique` and no truthy
`promo_common`. -/
def promoCodesConsistent (r : PromoCreateRequest) : Bool :=
  match r.mode with
  | .COMMON => pyTruthyStr r.promo_common && !pyTruthyList r.promo_unique
  | .UNIQUE =>
    decide (r.max_count ≠ 1) && pyTruthyList r.promo_unique &&
      !pyTruthyStr r.promo_common

/-- The pass-condition of the active-window portion of
`check_promo_codes`: when both dates are present, `active_from` must be
strictly before `active_until`. -/
def createDatesOk (r : PromoCreateRequest) : Bool :=
  match r.active_from, r.active_until with
  | some f, some u => decide (f < u)
  | _, _ => true

/-! ## Promo repository (`src/utils/repository.py`)

The relational store is embedded as a list of promo rows; primary keys
are unique, so `find?` renders `scalar_one_or_none` and a keyed `map`
renders in-place mutation of the fetched ORM object. -/

/-- A row of the `promos` table (`PromocodeORM`), with its `unique_promos`
code strings and `categories` names inlined. -/
structure PromoModel where
  id : String
  company_id : String
  description : String
  image_url : Option String := none
  age_from : Option Int := none
  age_until : Option Int := none
  country : Option String := none
  active_from : Option Int := none
  active_until : Option Int := none
  max_count : Int
  mode : PromoMode
  active : Bool := true
  like_count : Int := 0
  used_count : Int := 0
  promo_common : Option String := none
  unique_promos : List String := []
  categories : List String := []
  deriving DecidableEq, Repr

/-- `PromoRepository.create_promo`: the row built from a validated
request (`newId` stands for the server-generated primary key).
`image_url=str(data.image_url)` applies `str` unconditionally, so the
stored column is always a string — `"None"` when the request had no URL.
`active`, `like_count` and `used_count` take the ORM defaults. -/
def create_promo (data : PromoCreateRequest) (company_id newId : String) :
    PromoModel :=
  { id := newId
    company_id := company_id
    description := data.description
    image_url := some (pyStr data.image_url)
    age_from := match data.target with
      | some t => fieldVal t.age_from
      | none => none
    age_until := match data.target with
      | some t => fieldVal t.age_until
      | none => none
    country := match data.target with
      | some t => fieldVal t.country
      | none => none
    active_from := data.active_from
    active_until := data.active_until
    max_count := data.max_count
    mode := data.mode
    promo_common := data.promo_common
    categories := match data.target with
      | some t => t.categories.getD []
      | none => []
    unique_promos :=
      if data.mode = .UNIQUE then data.promo_unique.getD [] else [] }

/-- The `target=Target(...)` sub-object of the `PromoDTO` responses. -/
structure TargetView where
  age_from : Option Int
  age_until : Option Int
  country : Option String
  categories : List String
  deriving DecidableEq, Repr

/-- The `PromoDTO` response shape. -/
structure PromoDTO where
  id : String
  company_id : String
  description : String
  image_url : Option String
  target : TargetView
  max_count : Int
  active_from : Option Int
  active_until : Option Int
  mode : PromoMode
  active : Bool
  like_count : Int
  used_count : Int
  promo_common : Option String
  promo_unique : Option (List String)
  deriving DecidableEq, Repr

/-- The `PromoDTO(...)` construction shared by `get_company_promos`,
`get_company_promo_by_id` and `update_company_promo`: field-for-field
copy, with `promo_unique` set to the code list when non-empty and `None`
otherwise (`... if model.unique_promos else None`). -/
def promoModelToDTO (m : PromoModel) : PromoDTO :=
  { id := m.id
    company_id := m.company_id
    description := m.description
    image_url := m.image_url
    target := ⟨m.age_from, m.age_until, m.country, m.categories⟩
    max_count := m.max_count
    active_from := m.active_from
    active_until := m.active_until
    mode := m.mode
    active := m.active
    like_count := m.like_count
    used_count := m.used_count
    promo_common := m.promo_common
    promo_unique :=
      if m.unique_promos.isEmpty then none else some m.unique_promos }

/-- The 404 for a missing promo. -/
def promoNotFoundError : HttpError := ⟨404, "Промокод не найден."⟩

/-- The 403 for a promo owned by a different company. -/
def promoForbiddenError : HttpError :=
  ⟨403, "Промокод не принадлежит этой компании."⟩

/-- `PromoRepository.get_company_promo_by_id` (lines 201-247): 404 when
no row has the id, 403 when the owner differs, otherwise the DTO of the
stored row. -/
def get_company_promo_by_id (company_id promo_id : String)
    (db : List PromoModel) : Except HttpError PromoDTO :=
  match db.find? (fun m => m.id == promo_id) with
  | none => .error promoNotFoundError
  | some m =>
    if m.company_id ≠ company_id then .error promoForbiddenError
    else .ok (promoModelToDTO m)

/-- The merge step of `update_company_promo` (lines 274-291): top-level
fields are set only when their value is not `None`; then, if a `target`
body was supplied, its *explicitly set* fields (pydantic
`exclude_unset=True`) are written even when set to `None`, and an
explicitly supplied category list replaces the stored one. -/
def mergePromoPatch (m : PromoModel) (d : PromoPatch) : PromoModel :=
  let m1 : PromoModel :=
    { m with
      description := d.description.getD m.description
      image_url := match d.image_url with
        | some u => some u
        | none => m.image_url
      max_count := d.max_count.getD m.max_count
      active_from := match d.active_from with
        | some f => some f
        | none => m.active_from
      active_until := match d.active_until with
        | some u => some u
        | none => m.active_until }
  match d.target with
  | none => m1
  | some t =>
    let m2 : PromoModel :=
      { m1 with
        age_from := match t.age_from with
          | some v => v
          | none => m1.age_from
        age_until := match t.age_until with
          | some v => v
          | none => m1.age_until
        country := match t.country with
          | some v => v
          | none => m1.country }
    match t.categories with
    | some cats => { m2 with categories := cats }
    | none => m2

/-- The post-merge active-window re-check of `update_company_promo`
(lines 292-303): `model.active_from and model.active_until and
model.active_from >= model.active_until`.  A `datetime.date` is always
truthy, so the check fires exactly when both dates are present and
`active_from >= active_until`. -/
def patchWindowCheckFires (m : PromoModel) : Bool :=
  pyTruthyDate m.active_from && pyTruthyDate m.active_until &&
    decide (m.active_from.getD 0 ≥ m.active_until.getD 0)

/-- The post-merge age-range re-check of `update_company_promo`
(lines 304-311): `model.age_from and model.age_until and model.age_from
>= model.age_until`.  Python `and` short-circuits on falsy values and the
integer `0` is falsy, so an age equal to `0` silently disables the
check. -/
def patchAgeCheckFires (m : PromoModel) : Bool :=
  pyTruthyInt m.age_from && pyTruthyInt m.age_until &&
    decide (m.age_from.getD 0 ≥ m.age_until.getD 0)

/-- The 404 (sic) raised by both post-merge re-checks. -/
def patchInvariantError : HttpError := ⟨404, "Ошибка в данных запроса."⟩

/-- `PromoRepository.update_company_promo` (lines 249-339): fetch by id
(404 when absent), ownership check (403), merge of the explicitly-set
fields, the two post-merge re-checks, then commit — the stored row is
replaced by the merged one and its DTO is returned. -/
def update_company_promo (d : PromoPatch) (company_id promo_id : String)
    (db : List PromoModel) :
    Except HttpError (PromoDTO × List PromoModel) :=
  match db.find? (fun m => m.id == promo_id) with
  | none => .error promoNotFoundError
  | some m =>
    if m.company_id ≠ company_id then .error promoForbiddenError
    else
      let merged := mergePromoPatch m d
      if patchWindowCheckFires merged then .error patchInvariantError
      else if patchAgeCheckFires merged then .error patchInvariantError
      else
        .ok (promoModelToDTO merged,
          db.map (fun x => if x.id == promo_id then merged else x))

/-- The patch endpoint's pipeline: pydantic validation of the body
(`PromoPatch.check_data` and the field constraints), then the
repository's `update_company_promo`. -/
def promoPatchPipeline (d : PromoPatch) (company_id promo_id : String)
    (db : List PromoModel) :
    Except HttpError (PromoDTO × List PromoModel) :=
  match promoPatchValidate d with
  | .error e => .error e
  | .ok d' => update_company_promo d' company_id promo_id db

/-! ## Engagement layer (`src/services/user_service.py`) -/

/-- A row of the `users_promos` join table (`PromoUserORM`); the server
defaults of both flags are `false`. -/
structure PromoUser where
  user_id : String
  promo_id : String
  activated : Bool := false
  liked : Bool := false
  deriving DecidableEq, Repr

/-- The relational state touched by the engagement operations. -/
structure DBState where
  promos : List PromoModel
  engagements : List PromoUser
  deriving Repr

/-- The engagement row of a `(user, promo)` pair — the
`select(PromoUserORM).where(...)` lookup, unique by composite primary
key. -/
def findEngagement (s : DBState) (user_id promo_id : String) :
    Option PromoUser :=
  s.engagements.find? (fun r =>
    r.user_id == user_id && r.promo_id == promo_id)

/-- The stored promo row with a given id. -/
def findPromo (s : DBState) (promo_id : String) : Option PromoModel :=
  s.promos.find? (fun m => m.id == promo_id)

/-- Increment of the fetched promo's `like_count`
(`promo_orm.like_count += 1`), rendered as a keyed update. -/
def bumpLikeCount (promos : List PromoModel) (promo_id : String) :
    List PromoModel :=
  promos.map (fun m =>
    if m.id == promo_id then { m with like_count := m.like_count + 1 }
    else m)

/-- `UserService.like_promo` (lines 256-285): 404 when the promo is
absent; with no engagement row, add one with `liked=True` and increment
the promo's `like_count`; with an unliked row, flip it and increment;
otherwise commit without changes. -/
def like_promo (user_id promo_id : String) (s : DBState) :
    Except HttpError DBState :=
  let row := findEngagement s user_id promo_id
  match findPromo s promo_id with
  | none => .error promoNotFoundError
  | some _ =>
    match row with
    | none =>
      .ok { promos := bumpLikeCount s.promos promo_id
            engagements := s.engagements ++
              [{ user_id := user_id, promo_id := promo_id, liked := true }] }
    | some r =>
      if ¬ r.liked then
        .ok { promos := bumpLikeCount s.promos promo_id
              engagements := s.engagements.map (fun x =>
                if x.user_id == user_id && x.promo_id == promo_id then
                  { x with liked := true }
                else x) }
      else .ok s

/-! ## The user-router comment endpoints (`src/api/user.py`,
`src/services/user_service.py`)

`UserService` defines exactly the methods listed below; the
`DELETE /user/promo/.../comments/...` handler (api/user.py lines 261-285)
invokes `user_service.delete_comment(...)`, a method that does not exist
anywhere in the service. -/

/-- The methods defined on `UserService` in `services/user_service.py`. -/
def userServiceMethods : List String :=
  ["__call__", "create_access_token", "get_user_uuid_from_token",
   "is_exist_in_db", "user_sign_up", "user_sign_in", "get_user_profile",
   "patch_user_profile", "get_promos", "get_promo", "like_promo",
   "unlike_promo", "add_comment", "get_comments_for_promo",
   "get_comment_for_promo", "put_comment"]

/-- The `UserService` method name the `delete_comment` route handler
calls (`api/user.py` line 272). -/
def deleteCommentRouteCallee : String := "delete_comment"

/-! ## Concrete sample data

Closed inputs used to witness the theorems below on concrete runs. -/

/-- A valid COMMON-mode create request. -/
def sampleCommon : PromoCreateRequest :=
  { description := "Ten percent off winter"
    max_count := 10
    mode := .COMMON
    promo_common := some "sale-10" }

/-- A valid UNIQUE-mode create request. -/
def sampleUnique : PromoCreateRequest :=
  { description := "Ten percent off winter"
    max_count := 10
    mode := .UNIQUE
    promo_unique := some ["winter-sale-30"] }

/-- A stored promo row owned by company `c1`. -/
def samplePromoRow : PromoModel :=
  { id := "p1"
    company_id := "c1"
    description := "Ten percent off winter"
    max_count := 10
    mode := .COMMON
    promo_common := some "sale-10" }

/-- A patch that sets both target ages explicitly to `0`. -/
def agePatchZero : PromoPatch :=
  { target := some { age_from := some (some 0), age_until := some (some 0) } }

/-- The stored promo of the spec's ownership scenario: company `A`
creates promo `P` (`mode=COMMON`, code `SALE10`, `max_count=10`,
window 2024-01-01 to 2024-06-01, embedded as day ordinals). -/
def promoOfA : PromoModel :=
  { id := "P"
    company_id := "A"
    description := "Ten percent off winter"
    image_url := some "None"
    active_from := some 20240101
    active_until := some 20240601
    max_count := 10
    mode := .COMMON
    promo_common := some "SALE10" }

/-- Engagement state before any like: one promo, no engagement rows. -/
def likeS0 : DBState := ⟨[samplePromoRow], []⟩

/-- Engagement state after the first like by `u1` on `p1`. -/
def likeS1 : DBState :=
  ⟨[{ samplePromoRow with like_count := 1 }],
   [{ user_id := "u1", promo_id := "p1", liked := true }]⟩

/-! ## Theorems -/

/-- Claim C1: every successful sign-in (user or company) leaves exactly
the newly issued token's jti in the principal's Session Whitelist set, so
any token issued earlier (its jti differs from the new one) is no longer
whitelisted and fails the bearer's `verify_token_data` even though its
embedded expiry is checked elsewhere. -/
theorem sign_in_revokes_previous_tokens
    (s : WhitelistState) (pid newJti oldJti : String) (h : oldJti ≠ newJti) :
    user_sign_in_whitelist s pid newJti (whitelistKey .user pid) = [newJti] ∧
    check_jti_in_whitelist (user_sign_in_whitelist s pid newJti)
      pid oldJti .user = false ∧
    accessTokenUserVerify (user_sign_in_whitelist s pid newJti)
      { id := pid, jti := oldJti, refresh := false } =
      .error provideAccessTokenError ∧
    company_sign_in_whitelist s pid newJti (whitelistKey .company pid) =
      [newJti] ∧
    check_jti_in_whitelist (company_sign_in_whitelist s pid newJti)
      pid oldJti .company = false ∧
    accessTokenCompanyVerify (company_sign_in_whitelist s pid newJti)
      { id := pid, jti := oldJti, refresh := false } =
      .error provideAccessTokenError := by
  have hu : user_sign_in_whitelist s pid newJti (whitelistKey .user pid) =
      [newJti] := by
    simp [user_sign_in_whitelist, add_jti_to_whitelist,
      flush_all_jti_from_whitelist]
  have hc : company_sign_in_whitelist s pid newJti
      (whitelistKey .company pid) = [newJti] := by
    simp [company_sign_in_whitelist, add_jti_to_whitelist,
      flush_all_jti_from_whitelist]
  have hcu : check_jti_in_whitelist (user_sign_in_whitelist s pid newJti)
      pid oldJti .user = false := by
    simp [check_jti_in_whitelist, hu, h]
  have hcc : check_jti_in_whitelist (company_sign_in_whitelist s pid newJti)
      pid oldJti .company = false := by
    simp [check_jti_in_whitelist, hc, h]
  refine ⟨hu, hcu, ?_, hc, hcc, ?_⟩
  · simp [accessTokenUserVerify, hcu]
  · simp [accessTokenCompanyVerify, hcc]

/-- Witness for C1 on a concrete whitelist holding the old jti. -/
theorem sign_in_revokes_previous_tokens_witness :
    ("old" : String) ≠ "new" ∧
    check_jti_in_whitelist
      (user_sign_in_whitelist (fun _ => ["old"]) "u1" "new")
      "u1" "old" .user = false :=
  ⟨by decide,
   (sign_in_revokes_previous_tokens (fun _ => ["old"]) "u1" "new" "old"
     (by decide)).2.1⟩

/-- Claim C6: a token whose payload carries a truthy `refresh` flag fails
every access-gated bearer — the user bearer, the company bearer and the
base access bearer — regardless of the whitelist state; a token whose
signature or expiry is invalid fails at the decode step anyway. -/
theorem refresh_token_always_rejected
    (d : Option TokenPayload) (s : WhitelistState)
    (h : ∀ p, d = some p → p.refresh = true) :
    (∃ e, accessTokenUserCall d s = .error e) ∧
    (∃ e, accessTokenCompanyCall d s = .error e) ∧
    (∀ p : TokenPayload, p.refresh = true →
      accessTokenVerify p = .error provideAccessTokenError) := by
  refine ⟨?_, ?_, ?_⟩
  · cases d with
    | none => exact ⟨tokenInvalidError, rfl⟩
    | some p =>
      exact ⟨provideAccessTokenError, by
        simp [accessTokenUserCall, accessTokenUserVerify, h p rfl]⟩
  · cases d with
    | none => exact ⟨tokenInvalidError, rfl⟩
    | some p =>
      exact ⟨provideAccessTokenError, by
        simp [accessTokenCompanyCall, accessTokenCompanyVerify, h p rfl]⟩
  · intro p hp
    simp [accessTokenVerify, hp]

/-- Witness for C6: a refresh-marked payload is rejected even when its
jti is present in the whitelist. -/
theorem refresh_token_always_rejected_witness :
    (∃ e, accessTokenUserCall
      (some { id := "u1", jti := "j1", refresh := true })
      (fun _ => ["j1"]) = .error e) ∧
    (∃ e, accessTokenCompanyCall
      (some { id := "u1", jti := "j1", refresh := true })
      (fun _ => ["j1"]) = .error e) :=
  ⟨(refresh_token_always_rejected
      (some { id := "u1", jti := "j1", refresh := true }) (fun _ => ["j1"])
      (fun p hp => by cases hp; rfl)).1,
   (refresh_token_always_rejected
      (some { id := "u1", jti := "j1", refresh := true }) (fun _ => ["j1"])
      (fun p hp => by cases hp; rfl)).2.1⟩

/-- Claim C8 (code bug): the `DELETE .../comments/{comment_id}` route
handler calls `user_service.delete_comment`, but `UserService` defines no
such method, so the operation raises `AttributeError` instead of the
specified not-found/delete behaviour. -/
theorem delete_comment_not_implemented :
    deleteCommentRouteCallee ∉ userServiceMethods := by
  decide

/-- Claim C9: `create_promo` applies `str(...)` to the request's
`image_url` unconditionally, so the stored column is never null and a
request without an image URL stores the literal string `"None"`. -/
theorem create_promo_image_url_stringified
    (r : PromoCreateRequest) (cid nid : String) :
    (create_promo r cid nid).image_url ≠ none ∧
    (r.image_url = none →
      (create_promo r cid nid).image_url = some "None") := by
  constructor
  · simp [create_promo]
  · intro h
    simp [create_promo, h, pyStr]

/-- Witness for C9 on a request without an image URL. -/
theorem create_promo_image_url_stringified_witness :
    sampleCommon.image_url = none ∧
    (create_promo sampleCommon "c1" "p9").image_url = some "None" :=
  ⟨rfl, (create_promo_image_url_stringified sampleCommon "c1" "p9").2 rfl⟩

/-- Claim C10: `val_password` constructs its validation exception without
raising it, so it returns the input unchanged for every string — even one
that fails the pattern, like `"short"`. -/
theorem val_password_never_rejects :
    (∀ v : String, val_password v = .ok v) ∧
    val_password "short" = .ok "short" ∧
    passwordPatternMatch "short" = false := by
  have hall : ∀ v : String, val_password v = .ok v := by
    intro v
    unfold val_password
    split <;> rfl
  exact ⟨hall, hall "short", by decide⟩

/-- Claim C5: `get_company_promo_by_id` returns 404 when no promo has the
requested id, 403 when the promo belongs to a different company, and the
stored promo's DTO when the caller owns it. -/
theorem get_by_id_ownership (cid pid : String) (db : List PromoModel) :
    (db.find? (fun m => m.id == pid) = none →
      get_company_promo_by_id cid pid db = .error promoNotFoundError) ∧
    (∀ m, db.find? (fun m => m.id == pid) = some m → m.company_id ≠ cid →
      get_company_promo_by_id cid pid db = .error promoForbiddenError) ∧
    (∀ m, db.find? (fun m => m.id == pid) = some m → m.company_id = cid →
      get_company_promo_by_id cid pid db = .ok (promoModelToDTO m)) := by
  refine ⟨?_, ?_, ?_⟩
  · intro h
    simp [get_company_promo_by_id, h]
  · intro m hm hne
    simp [get_company_promo_by_id, hm, hne]
  · intro m hm he
    simp [get_company_promo_by_id, hm, he]

/-- Witness for C5: the spec's ownership scenario — company `B` is
forbidden on `A`'s promo `P`, company `A` reads back the stored fields,
and an unknown id is not found. -/
theorem get_by_id_ownership_witness :
    get_company_promo_by_id "A" "zz" [promoOfA] = .error promoNotFoundError ∧
    get_company_promo_by_id "B" "P" [promoOfA] = .error promoForbiddenError ∧
    get_company_promo_by_id "A" "P" [promoOfA] = .ok (promoModelToDTO promoOfA) :=
  ⟨(get_by_id_ownership "A" "zz" [promoOfA]).1 rfl,
   (get_by_id_ownership "B" "P" [promoOfA]).2.1 promoOfA rfl (by decide),
   (get_by_id_ownership "A" "P" [promoOfA]).2.2 promoOfA rfl rfl⟩

/-- `check_promo_codes` succeeds, returning the request unchanged, when
the mode/code-field checks and the active-window check all pass. -/
lemma check_promo_codes_pass {r : PromoCreateRequest}
    (h : promoCodesConsistent r = true) (hd : createDatesOk r = true) :
    check_promo_codes r = .ok r := by
  unfold promoCodesConsistent at h
  unfold createDatesOk at hd
  unfold check_promo_codes
  cases hm : r.mode <;> rw [hm] at h <;> simp at h
  · rcases h with ⟨h1, h2⟩
    simp [h1, h2]
    cases hf : r.active_from <;> cases hu : r.active_until <;>
      rw [hf, hu] at hd <;> simp_all
  · rcases h with ⟨⟨h1, h2⟩, h3⟩
    simp [h1, h2, h3]
    cases hf : r.active_from <;> cases hu : r.active_until <;>
      rw [hf, hu] at hd <;> simp_all

/-- `check_promo_codes` fails whenever the mode/code-field checks or the
active-window check fails. -/
lemma check_promo_codes_fail {r : PromoCreateRequest}
    (h : (promoCodesConsistent r && createDatesOk r) = false) :
    exceptOk (check_promo_codes r) = false := by
  unfold promoCodesConsistent createDatesOk at h
  unfold check_promo_codes
  cases hm : r.mode <;> rw [hm] at h
  · cases hc : pyTruthyStr r.promo_common
    · simp [hc, exceptOk]
    · cases hu : pyTruthyList r.promo_unique
      · rw [hc, hu] at h
        simp at h
        cases hf : r.active_from <;> cases hu2 : r.active_until <;>
          rw [hf, hu2] at h <;> simp_all [exceptOk]
      · simp [hc, hu, exceptOk]
  · by_cases h1 : r.max_count = 1
    · simp [h1, exceptOk]
    · cases hu : pyTruthyList r.promo_unique
      · simp [h1, hu, exceptOk]
      · cases hc : pyTruthyStr r.promo_common
        · rw [hc, hu] at h
          simp [h1] at h
          cases hf : r.active_from <;> cases hu2 : r.active_until <;>
            rw [hf, hu2] at h <;> simp_all [h1, exceptOk]
        · simp [h1, hu, hc, exceptOk]

/-- A request that passed the pydantic field constraints has a
`promo_unique` list of 1 to 5000 entries whenever the list is present. -/
lemma promoCreateFieldsOk_unique_bounds {r : PromoCreateRequest}
    {l : List String} (hf : promoCreateFieldsOk r = true)
    (hl : r.promo_unique = some l) :
    1 ≤ l.length ∧ l.length ≤ 5000 := by
  unfold promoCreateFieldsOk at hf
  rw [hl] at hf
  simp at hf
  refine ⟨?_, ?_⟩ <;> tauto

/-- Claim C2: a COMMON create request with a non-empty `promo_unique`
is rejected, a UNIQUE request with a non-empty `promo_common` is
rejected, a UNIQUE request with `max_count = 1` is rejected, a COMMON
request without a `promo_common` is rejected, and a UNIQUE request whose
`promo_unique` is absent or falls outside 1-5000 entries is rejected —
all by request validation, before any write. -/
theorem promo_create_mode_code_consistency (r : PromoCreateRequest) :
    (r.mode = .COMMON → pyTruthyList r.promo_unique = true →
      exceptOk (promoCreateValidate r) = false) ∧
    (r.mode = .UNIQUE → pyTruthyStr r.promo_common = true →
      exceptOk (promoCreateValidate r) = false) ∧
    (r.mode = .UNIQUE → r.max_count = 1 →
      exceptOk (promoCreateValidate r) = false) ∧
    (r.mode = .COMMON → pyTruthyStr r.promo_common = false →
      exceptOk (promoCreateValidate r) = false) ∧
    (r.mode = .UNIQUE →
      (r.promo_unique = none ∨
        ∃ l, r.promo_unique = some l ∧ (l.length < 1 ∨ 5000 < l.length)) →
      exceptOk (promoCreateValidate r) = false) := by
  by_cases hf : promoCreateFieldsOk r
  case neg =>
    have hv : promoCreateValidate r = .error fieldValidationError := by
      simp [promoCreateValidate, hf]
    exact ⟨fun _ _ => by simp [hv, exceptOk],
           fun _ _ => by simp [hv, exceptOk],
           fun _ _ => by simp [hv, exceptOk],
           fun _ _ => by simp [hv, exceptOk],
           fun _ _ => by simp [hv, exceptOk]⟩
  case pos =>
    have hv : promoCreateValidate r = check_promo_codes r := by
      simp [promoCreateValidate, hf]
    refine ⟨?_, ?_, ?_, ?_, ?_⟩
    · intro hm hu
      rw [hv]
      apply check_promo_codes_fail
      simp [promoCodesConsistent, hm, hu]
    · intro hm hc
      rw [hv]
      apply check_promo_codes_fail
      simp [promoCodesConsistent, hm, hc]
    · intro hm h1
      rw [hv]
      apply check_promo_codes_fail
      simp [promoCodesConsistent, hm, h1]
    · intro hm hc
      rw [hv]
      apply check_promo_codes_fail
      simp [promoCodesConsistent, hm, hc]
    · intro hm hdisj
      rcases hdisj with hn | ⟨l, hl, hbound⟩
      · rw [hv]
        apply check_promo_codes_fail
        simp [promoCodesConsistent, hm, hn, pyTruthyList]
      · have hb := promoCreateFieldsOk_unique_bounds hf hl
        omega

/-- Witness for C2 on five concrete create requests. -/
theorem promo_create_mode_code_consistency_witness :
    exceptOk (promoCreateValidate
      { sampleCommon with promo_unique := some ["winter-sale-30"] }) = false ∧
    exceptOk (promoCreateValidate
      { sampleUnique with promo_common := some "sale-10" }) = false ∧
    exceptOk (promoCreateValidate
      { sampleUnique with max_count := 1 }) = false ∧
    exceptOk (promoCreateValidate
      { sampleCommon with promo_common := none }) = false ∧
    exceptOk (promoCreateValidate
      { sampleUnique with promo_unique := none }) = false :=
  ⟨(promo_create_mode_code_consistency _).1 rfl (by decide),
   (promo_create_mode_code_consistency _).2.1 rfl (by decide),
   (promo_create_mode_code_consistency _).2.2.1 rfl (by decide),
   (promo_create_mode_code_consistency _).2.2.2.1 rfl (by decide),
   (promo_create_mode_code_consistency _).2.2.2.2 rfl (Or.inl rfl)⟩

/-- `promoPatchValidate` either returns the request unchanged or fails. -/
lemma promoPatchValidate_cases (d : PromoPatch) :
    promoPatchValidate d = .ok d ∨ ∃ e, promoPatchValidate d = .error e := by
  unfold promoPatchValidate check_data
  split
  · split
    · split
      · exact .inr ⟨_, rfl⟩
      · exact .inl rfl
    · exact .inl rfl
  · exact .inr ⟨_, rfl⟩

/-- The merge step never touches `active_from` except through the
request's own top-level `active_from`. -/
lemma mergePromoPatch_active_from (m : PromoModel) (d : PromoPatch) :
    (mergePromoPatch m d).active_from =
      match d.active_from with
      | some f => some f
      | none => m.active_from := by
  cases d with
  | mk desc img tgt mc af au =>
    cases tgt with
    | none => rfl
    | some t =>
      cases t with
      | mk taf tau tc tcat => cases tcat <;> rfl

/-- The merge step never touches `active_until` except through the
request's own top-level `active_until`. -/
lemma mergePromoPatch_active_until (m : PromoModel) (d : PromoPatch) :
    (mergePromoPatch m d).active_until =
      match d.active_until with
      | some u => some u
      | none => m.active_until := by
  cases d with
  | mk desc img tgt mc af au =>
    cases tgt with
    | none => rfl
    | some t =>
      cases t with
      | mk taf tau tc tcat => cases tcat <;> rfl

/-- Claim C3: creation rejects `active_from >= active_until` and accepts
`active_from < active_until` (on an otherwise valid request); the patch
pipeline rejects whenever the *post-merge* pair violates the window —
including one-sided patches — and succeeds when the post-merge pair is
valid (and the remaining checks pass). -/
theorem active_window_enforced_on_create_and_patch :
    (∀ (r : PromoCreateRequest) (f u : Int), r.active_from = some f →
      r.active_until = some u → u ≤ f →
      exceptOk (promoCreateValidate r) = false) ∧
    (∀ (r : PromoCreateRequest) (f u : Int), promoCreateFieldsOk r = true →
      promoCodesConsistent r = true → r.active_from = some f →
      r.active_until = some u → f < u →
      promoCreateValidate r = .ok r) ∧
    (∀ (d : PromoPatch) (cid pid : String) (db : List PromoModel)
       (m : PromoModel) (f u : Int),
      db.find? (fun x => x.id == pid) = some m →
      m.company_id = cid →
      (mergePromoPatch m d).active_from = some f →
      (mergePromoPatch m d).active_until = some u → u ≤ f →
      exceptOk (promoPatchPipeline d cid pid db) = false) ∧
    (∀ (d : PromoPatch) (cid pid : String) (db : List PromoModel)
       (m : PromoModel) (f u : Int),
      promoPatchFieldsOk d = true →
      db.find? (fun x => x.id == pid) = some m →
      m.company_id = cid →
      (mergePromoPatch m d).active_from = some f →
      (mergePromoPatch m d).active_until = some u → f < u →
      patchAgeCheckFires (mergePromoPatch m d) = false →
      exceptOk (promoPatchPipeline d cid pid db) = true) := by
  refine ⟨?_, ?_, ?_, ?_⟩
  · intro r f u hf' hu' hge
    by_cases hfo : promoCreateFieldsOk r
    · have hv : promoCreateValidate r = check_promo_codes r := by
        simp [promoCreateValidate, hfo]
      rw [hv]
      apply check_promo_codes_fail
      have hd : createDatesOk r = false := by
        simp [createDatesOk, hf', hu']
        omega
      simp [hd]
    · simp [promoCreateValidate, hfo, exceptOk]
  · intro r f u hfo hcc hf' hu' hlt
    have hd : createDatesOk r = true := by
      simp [createDatesOk, hf', hu']
      omega
    simp [promoCreateValidate, hfo, check_promo_codes_pass hcc hd]
  · intro d cid pid db m f u hfind hcid hmf hmu hge
    rcases promoPatchValidate_cases d with hok | ⟨e, herr⟩
    · have hw : patchWindowCheckFires (mergePromoPatch m d) = true := by
        simp [patchWindowCheckFires, hmf, hmu, pyTruthyDate]
        omega
      simp [promoPatchPipeline, hok]
      unfold update_company_promo
      rw [hfind]
      simp [hcid, hw, exceptOk]
    · simp [promoPatchPipeline, herr, exceptOk]
  · intro d cid pid db m f u hdf hfind hcid hmf hmu hlt hage
    have hf2 := mergePromoPatch_active_from m d
    have hu2 := mergePromoPatch_active_until m d
    have hcd : check_data d = .ok d := by
      unfold check_data
      rcases h1 : d.active_from with _ | f' <;>
        rcases h2 : d.active_until with _ | u' <;> simp only [h1, h2]
      rw [h1] at hf2
      rw [h2] at hu2
      rw [hmf] at hf2
      rw [hmu] at hu2
      have hfe : f = f' := by injection hf2
      have hue : u = u' := by injection hu2
      have : ¬ f' > u' := by omega
      simp [this]
    have hval : promoPatchValidate d = .ok d := by
      simp [promoPatchValidate, hdf, hcd]
    have hw : patchWindowCheckFires (mergePromoPatch m d) = false := by
      simp [patchWindowCheckFires, hmf, hmu, pyTruthyDate]
      omega
    simp [promoPatchPipeline, hval]
    unfold update_company_promo
    rw [hfind]
    simp [hcid, hw, hage, exceptOk]

/-- Witness for C3: a rejected and an accepted creation, a rejected
equal-dates patch, and an accepted patch, all concrete. -/
theorem active_window_enforced_witness :
    exceptOk (promoCreateValidate
      { sampleCommon with active_from := some 5, active_until := some 3 })
      = false ∧
    promoCreateValidate
      { sampleCommon with active_from := some 1, active_until := some 5 } =
      .ok { sampleCommon with active_from := some 1, active_until := some 5 } ∧
    exceptOk (promoPatchPipeline
      { active_from := some 7, active_until := some 7 } "c1" "p1"
      [samplePromoRow]) = false ∧
    exceptOk (promoPatchPipeline
      { active_from := some 1, active_until := some 5 } "c1" "p1"
      [samplePromoRow]) = true :=
  ⟨(active_window_enforced_on_create_and_patch).1 _ 5 3 rfl rfl (by decide),
   (active_window_enforced_on_create_and_patch).2.1 _ 1 5 (by decide)
     (by decide) rfl rfl (by decide),
   (active_window_enforced_on_create_and_patch).2.2.1 _ "c1" "p1" _
     samplePromoRow 7 7 rfl rfl rfl rfl (by decide),
   (active_window_enforced_on_create_and_patch).2.2.2 _ "c1" "p1" _
     samplePromoRow 1 5 (by decide) rfl rfl rfl rfl (by decide) rfl⟩

/-- Claim C4 (code bug): the post-merge age re-check of
`update_company_promo` relies on Python truthiness, and the integer `0`
is falsy — so a patch setting `age_from = 0` and `age_until = 0`
(`age_from >= age_until`, violating the invariant) is *not* rejected:
the update is committed with the merged ages persisted. -/
theorem zero_age_patch_is_committed :
    (mergePromoPatch samplePromoRow agePatchZero).age_from = some 0 ∧
    (mergePromoPatch samplePromoRow agePatchZero).age_until = some 0 ∧
    promoPatchPipeline agePatchZero "c1" "p1" [samplePromoRow] =
      .ok (promoModelToDTO (mergePromoPatch samplePromoRow agePatchZero),
           [mergePromoPatch samplePromoRow agePatchZero]) :=
  ⟨rfl, rfl, rfl⟩

/-- Appending a matching row to a list with no match makes `find?`
return that row. -/
lemma find?_append_none {α : Type} (p : α → Bool) (l : List α) (r : α)
    (h : l.find? p = none) (hr : p r = true) :
    (l ++ [r]).find? p = some r := by
  induction l with
  | nil => simp [List.find?, hr]
  | cons a t ih =>
    rw [List.find?_cons] at h
    cases hpa : p a
    · rw [hpa] at h
      rw [List.cons_append, List.find?_cons, hpa]
      exact ih h
    · rw [hpa] at h
      cases h

/-- A keyed in-place update commutes with `find?` on the same key,
provided the update preserves the key. -/
lemma find?_map_ite {α : Type} (p : α → Bool) (f : α → α)
    (hf : ∀ a, p a = true → p (f a) = true) (l : List α) :
    (l.map (fun a => if p a then f a else a)).find? p =
      (l.find? p).map f := by
  induction l with
  | nil => rfl
  | cons a t ih =>
    cases hpa : p a
    · rw [List.map_cons, if_neg (by simp [hpa]), List.find?_cons, hpa,
        List.find?_cons, hpa]
      exact ih
    · rw [List.map_cons, if_pos hpa, List.find?_cons, hf a hpa,
        List.find?_cons, hpa]
      rfl

/-- Claim C7: `like_promo` is idempotent — a successful call yields a
state on which a second call is a no-op returning the same state; the
first call creates the engagement row with `liked=true` and increments
`like_count` when no row existed, flips an unliked row with an increment,
and leaves everything unchanged when the row was already liked. -/
theorem like_promo_idempotent (u p : String) (s s' : DBState)
    (h : like_promo u p s = .ok s') :
    like_promo u p s' = .ok s' ∧
    (findEngagement s u p = none →
      findEngagement s' u p =
        some { user_id := u, promo_id := p, liked := true } ∧
      (findPromo s' p).map (fun m => m.like_count) =
        (findPromo s p).map (fun m => m.like_count + 1)) ∧
    (∀ r, findEngagement s u p = some r → r.liked = false →
      findEngagement s' u p = some { r with liked := true } ∧
      (findPromo s' p).map (fun m => m.like_count) =
        (findPromo s p).map (fun m => m.like_count + 1)) ∧
    (∀ r, findEngagement s u p = some r → r.liked = true → s' = s) := by
  cases hp : findPromo s p with
  | none =>
    have hval : like_promo u p s = .error promoNotFoundError := by
      simp [like_promo, hp]
    rw [hval] at h
    cases h
  | some pm =>
    have hp0 : s.promos.find? (fun m => m.id == p) = some pm := hp
    cases he : findEngagement s u p with
    | none =>
      have hval : like_promo u p s =
          .ok { promos := bumpLikeCount s.promos p
                engagements := s.engagements ++
                  [{ user_id := u, promo_id := p, liked := true }] } := by
        simp [like_promo, hp, he]
      rw [hval] at h
      have hs := Except.ok.inj h
      subst hs
      have hp' : findPromo
          { promos := bumpLikeCount s.promos p
            engagements := s.engagements ++
              [{ user_id := u, promo_id := p, liked := true }] } p =
          some { pm with like_count := pm.like_count + 1 } := by
        unfold findPromo bumpLikeCount
        rw [find?_map_ite (fun m => m.id == p)
          (fun m => { m with like_count := m.like_count + 1 })
          (fun a ha => ha) s.promos]
        rw [hp0]
        rfl
      have he' : findEngagement
          { promos := bumpLikeCount s.promos p
            engagements := s.engagements ++
              [{ user_id := u, promo_id := p, liked := true }] } u p =
          some { user_id := u, promo_id := p, liked := true } := by
        unfold findEngagement
        apply find?_append_none
        · exact he
        · simp
      refine ⟨?_, ?_, ?_, ?_⟩
      · simp [like_promo, hp', he']
      · intro _
        refine ⟨he', ?_⟩
        simp [hp']
      · intro r hr _
        cases hr
      · intro r hr _
        cases hr
    | some r =>
      cases hl : r.liked with
      | true =>
        have hval : like_promo u p s = .ok s := by
          simp [like_promo, hp, he, hl]
        rw [hval] at h
        have hs := Except.ok.inj h
        subst hs
        refine ⟨hval, ?_, ?_, ?_⟩
        · intro hn
          cases hn
        · intro r' hr' hl'
          have hre : r = r' := Option.some.inj hr'
          subst hre
          rw [hl] at hl'
          cases hl'
        · intro _ _ _
          rfl
      | false =>
        have hval : like_promo u p s =
            .ok { promos := bumpLikeCount s.promos p
                  engagements := s.engagements.map (fun x =>
                    if x.user_id == u && x.promo_id == p then
                      { x with liked := true }
                    else x) } := by
          simp [like_promo, hp, he, hl]
        rw [hval] at h
        have hs := Except.ok.inj h
        subst hs
        have hp' : findPromo
            { promos := bumpLikeCount s.promos p
              engagements := s.engagements.map (fun x =>
                if x.user_id == u && x.promo_id == p then
                  { x with liked := true }
                else x) } p =
            some { pm with like_count := pm.like_count + 1 } := by
          unfold findPromo bumpLikeCount
          rw [find?_map_ite (fun m => m.id == p)
            (fun m => { m with like_count := m.like_count + 1 })
            (fun a ha => ha) s.promos]
          rw [hp0]
          rfl
        have he0 : s.engagements.find? (fun x =>
            x.user_id == u && x.promo_id == p) = some r := he
        have he' : findEngagement
            { promos := bumpLikeCount s.promos p
              engagements := s.engagements.map (fun x =>
                if x.user_id == u && x.promo_id == p then
                  { x with liked := true }
                else x) } u p = some { r with liked := true } := by
          unfold findEngagement
          rw [find?_map_ite (fun x => x.user_id == u && x.promo_id == p)
            (fun x => { x with liked := true }) (fun a ha => ha)
            s.engagements]
          rw [he0]
          rfl
        refine ⟨?_, ?_, ?_, ?_⟩
        · simp only [like_promo]
          rw [hp', he']
          simp
        · intro hn
          cases hn
        · intro r' hr' _
          have hre : r = r' := Option.some.inj hr'
          subst hre
          refine ⟨he', ?_⟩
          rw [hp']
          rfl
        · intro r' hr' hl'
          have hre : r = r' := Option.some.inj hr'
          subst hre
          rw [hl] at hl'
          cases hl'

/-- Witness for C7: liking the sample promo once from the empty
engagement state, then liking it again, returns the same state. -/
theorem like_promo_idempotent_witness :
    like_promo "u1" "p1" likeS0 = .ok likeS1 ∧
    like_promo "u1" "p1" likeS1 = .ok likeS1 :=
  ⟨rfl, (like_promo_idempotent "u1" "p1" likeS0 likeS1 rfl).1⟩

end PromoService
